import Mathlib

/-!
Shallow embedding of src/app.py, a LINE webhook bot that turns ingredient
lists (text or fridge photos) into generated recipes.

Text handled by the chunker is modelled as List Char: Python len and
str.split count codepoints, exactly like List Char length.  The handlers'
external effects (LINE reply/push sends, OpenAI calls, the content fetch
and the temporary file's lifecycle) are modelled as event traces driven by
an oracle that records the outcome of each external call.
-/

namespace Agent525

/-- ASCII whitespace as stripped by Python str.strip, used by the
`if not sentence.strip(): continue` filter in make_bubble_chunks. -/
def isPySpace (c : Char) : Bool :=
  c == ' ' || c == '\t' || c == '\n' || c == '\x0b' || c == '\x0c' || c == '\r'

/-- A sentence survives the `if not sentence.strip(): continue` filter
iff it contains at least one non-whitespace character. -/
def keepSentence (s : List Char) : Bool :=
  !(s.all isPySpace)

/-- text.replace of each newline by a space, from make_bubble_chunks line 49. -/
def replaceNewlines (s : List Char) : List Char :=
  s.map fun c => if c = '\n' then ' ' else c

/-- Python str.split on a one-character separator: the parts between
occurrences of the separator, empty parts included. -/
def splitOn (sep : Char) : List Char → List (List Char)
  | [] => [[]]
  | c :: rest =>
    match splitOn sep rest with
    | [] => [[]]
    | p :: ps => if c = sep then [] :: p :: ps else (c :: p) :: ps

/-- The accumulation loop of make_bubble_chunks (src/app.py lines 50-62):
each kept sentence is re-terminated with '。'; a bubble is flushed when the
running text is nonempty and would exceed maxChars with the next piece. -/
def chunkLoop (maxChars : Nat) : List (List Char) → List Char → List (List Char)
  | [], current => if current = [] then [] else [current]
  | s :: rest, current =>
    if keepSentence s then
      let piece := s ++ ['。']
      if current ≠ [] ∧ maxChars < current.length + piece.length then
        current :: chunkLoop maxChars rest piece
      else
        chunkLoop maxChars rest (current ++ piece)
    else
      chunkLoop maxChars rest current

/-- make_bubble_chunks from src/app.py lines 47-63 (the Python default for
max_chars is 2000; it is passed explicitly here). -/
def make_bubble_chunks (text : List Char) (maxChars : Nat) : List (List Char) :=
  chunkLoop maxChars (splitOn '。' (replaceNewlines text)) []

/-- The sentences of a text that survive the whitespace filter, in order:
exactly those the loop turns into pieces. -/
def keptSentences (text : List Char) : List (List Char) :=
  (splitOn '。' (replaceNewlines text)).filter keepSentence

lemma chunkLoop_flatten (maxChars : Nat) (sentences : List (List Char)) :
    ∀ current, (chunkLoop maxChars sentences current).flatten
      = current ++ ((sentences.filter keepSentence).map (fun s => s ++ ['。'])).flatten := by
  induction sentences with
  | nil =>
    intro current
    by_cases h : current = [] <;> simp [chunkLoop, h]
  | cons s rest ih =>
    intro current
    simp only [chunkLoop]
    split
    · rename_i hk
      split
      · simp [List.filter_cons, hk, ih, List.append_assoc]
      · simp [List.filter_cons, hk, ih, List.append_assoc]
    · rename_i hk
      simp [List.filter_cons, hk, ih]

/-- C3: concatenating all output bubbles, in order, reconstructs exactly the
sequence of kept (non-whitespace-only) sentences of the newline-normalised
text, each with its '。' delimiter re-appended — nothing is dropped and
nothing is reordered. -/
theorem claim_C3_chunks_lossless (text : List Char) (maxChars : Nat) :
    (make_bubble_chunks text maxChars).flatten
      = ((keptSentences text).map (fun s => s ++ ['。'])).flatten := by
  simpa [make_bubble_chunks, keptSentences] using
    chunkLoop_flatten maxChars (splitOn '。' (replaceNewlines text)) []

lemma chunkLoop_size (maxChars : Nat) (pool : List (List Char)) :
    ∀ (sentences : List (List Char)) (current : List Char),
      (∀ s ∈ sentences, s ∈ pool) →
      (current = [] ∨ current.length ≤ maxChars ∨
        ∃ s, s ∈ pool ∧ keepSentence s = true ∧ current = s ++ ['。']) →
      ∀ b ∈ chunkLoop maxChars sentences current,
        b.length ≤ maxChars ∨ ∃ s, s ∈ pool ∧ keepSentence s = true ∧ b = s ++ ['。'] := by
  intro sentences
  induction sentences with
  | nil =>
    intro current hsub hc b hb
    by_cases h : current = []
    · simp [chunkLoop, h] at hb
    · simp [chunkLoop, h] at hb
      subst hb
      rcases hc with hc | hc | hc
      · exact absurd hc h
      · exact Or.inl hc
      · exact Or.inr hc
  | cons s rest ih =>
    intro current hsub hc b hb
    have hs : s ∈ pool := hsub s (List.mem_cons_self s rest)
    have hsub2 : ∀ t ∈ rest, t ∈ pool := fun t ht => hsub t (List.mem_cons_of_mem s ht)
    simp only [chunkLoop] at hb
    by_cases hk : keepSentence s
    · rw [if_pos hk] at hb
      by_cases hf : current ≠ [] ∧ maxChars < current.length + (s ++ ['。']).length
      · rw [if_pos hf] at hb
        rcases List.mem_cons.mp hb with hb | hb
        · subst hb
          rcases hc with hc | hc | hc
          · exact absurd hc hf.1
          · exact Or.inl hc
          · exact Or.inr hc
        · exact ih (s ++ ['。']) hsub2 (Or.inr (Or.inr ⟨s, hs, hk, rfl⟩)) b hb
      · rw [if_neg hf] at hb
        refine ih (current ++ (s ++ ['。'])) hsub2 ?_ b hb
        by_cases hcur : current = []
        · subst hcur
          exact Or.inr (Or.inr ⟨s, hs, hk, by simp⟩)
        · push_neg at hf
          have hlen := hf hcur
          refine Or.inr (Or.inl ?_)
          rw [List.length_append]
          omega
    · rw [if_neg hk] at hb
      exact ih current hsub2 hc b hb

/-- C4: for maxChars ≥ 1, every bubble fits within maxChars, except a bubble
that consists of one single kept sentence plus its '。' delimiter whose
length alone exceeds maxChars, emitted oversized and unsplit. -/
theorem claim_C4_chunk_size (text : List Char) (maxChars : Nat) (hmx : 1 ≤ maxChars)
    (b : List Char) (hb : b ∈ make_bubble_chunks text maxChars) :
    b.length ≤ maxChars ∨
      (maxChars < b.length ∧ ∃ s, s ∈ splitOn '。' (replaceNewlines text) ∧
        keepSentence s = true ∧ b = s ++ ['。']) := by
  have h := chunkLoop_size maxChars (splitOn '。' (replaceNewlines text))
    (splitOn '。' (replaceNewlines text)) [] (fun s hs => hs) (Or.inl rfl) b hb
  rcases h with h | h
  · exact Or.inl h
  · by_cases hlen : b.length ≤ maxChars
    · exact Or.inl hlen
    · exact Or.inr ⟨Nat.lt_of_not_le hlen, h⟩

/-- Witness for C4 at the concrete input "a" with maxChars 5. -/
theorem claim_C4_witness :
    (['a', '。'] : List Char).length ≤ 5 ∨
      (5 < (['a', '。'] : List Char).length ∧ ∃ s, s ∈ splitOn '。' (replaceNewlines ['a']) ∧
        keepSentence s = true ∧ (['a', '。'] : List Char) = s ++ ['。']) :=
  claim_C4_chunk_size ['a'] 5 (by decide) ['a', '。'] (by decide)

lemma getLast_append_singleton {l : List Char} {a : Char} : (l ++ [a]).getLast? = some a := by
  induction l with
  | nil => rfl
  | cons x xs ih =>
    rw [List.cons_append, List.getLast?_cons]
    simp only [ih]
    cases xs <;> simp_all

lemma chunkLoop_units_delim (maxChars : Nat) :
    ∀ (sentences : List (List Char)) (current : List Char),
      (current = [] ∨ current.getLast? = some '。') →
      ∀ b ∈ chunkLoop maxChars sentences current, b ≠ [] ∧ b.getLast? = some '。' := by
  intro sentences
  induction sentences with
  | nil =>
    intro current hc b hb
    by_cases h : current = []
    · simp [chunkLoop, h] at hb
    · simp [chunkLoop, h] at hb
      subst hb
      exact ⟨h, hc.resolve_left h⟩
  | cons s rest ih =>
    intro current hc b hb
    simp only [chunkLoop] at hb
    by_cases hk : keepSentence s
    · rw [if_pos hk] at hb
      by_cases hf : current ≠ [] ∧ maxChars < current.length + (s ++ ['。']).length
      · rw [if_pos hf] at hb
        rcases List.mem_cons.mp hb with hb | hb
        · subst hb
          exact ⟨hf.1, hc.resolve_left hf.1⟩
        · exact ih (s ++ ['。']) (Or.inr getLast_append_singleton) b hb
      · rw [if_neg hf] at hb
        refine ih (current ++ (s ++ ['。'])) (Or.inr ?_) b hb
        rw [← List.append_assoc]
        exact getLast_append_singleton
    · rw [if_neg hk] at hb
      exact ih current hc b hb

/-- C10: every bubble make_bubble_chunks outputs is non-empty and ends with
the sentence delimiter '。' — in particular a final sentence lacking a
trailing '。' has one re-appended by the loop. -/
theorem claim_C10_chunks_end_with_delimiter (text : List Char) (maxChars : Nat)
    (b : List Char) (hb : b ∈ make_bubble_chunks text maxChars) :
    b ≠ [] ∧ b.getLast? = some '。' :=
  chunkLoop_units_delim maxChars (splitOn '。' (replaceNewlines text)) [] (Or.inl rfl) b hb

/-- Witness for C10 at the concrete input "a" with maxChars 2000. -/
theorem claim_C10_witness :
    (['a', '。'] : List Char) ≠ [] ∧ (['a', '。'] : List Char).getLast? = some '。' :=
  claim_C10_chunks_end_with_delimiter ['a'] 2000 ['a', '。'] (by decide)

/-- Fixed acknowledgment text of the text handler (src/app.py line 134). -/
def ackTextMsg : String := "材料みたよ〜っ🍅✨ いまかわいいレシピつくってるね💕"

/-- Fixed except-block apology of the text handler (src/app.py line 165). -/
def textErrMsg : String := "えへへ、レシピの生成でちょっとおっちょこしちゃったの…💦"

/-- Fixed acknowledgment text of the image handler (src/app.py line 175). -/
def ackImageMsg : String := "れしぴ考え中だよ〜っ📷✨ちょっとまっててね！"

/-- Fixed apology returned by generate_recipe_from_ingredients when the
OpenAI call raises (src/app.py line 121). -/
def genErrMsg : String := "ごめんなさい、レシピの生成中にエラーが発生しちゃった…"

/-- Outcome-observable events of one event's processing: LINE sends (reply
consumes the reply token, push is addressed by user id) and the external
calls whose occurrence the claims talk about. -/
inductive Ev where
  | reply (token : String) (text : String)
  | push (userId : String) (text : String)
  | fetchCall
  | detectCall
  | genCall
deriving DecidableEq

/-- Oracle for handle_message: whether reply_message succeeds, what the
OpenAI call does (none = raises, some t = returns t, already stripped), and
the index of the first push_message call in the loop that raises, if any. -/
structure TextOracle where
  replyOk : Bool
  genResult : Option String
  pushFailAt : Option Nat
deriving DecidableEq

/-- Oracle for handle_image / async_job: outcome of the ack reply, the
content fetch, the vision call, the recipe-generation call, and the push
loop, in program order. -/
structure ImageOracle where
  replyOk : Bool
  fetchOk : Bool
  detectResult : Option String
  genResult : Option String
  pushFailAt : Option Nat
deriving DecidableEq

/-- Lifecycle events of the temporary file used by the image job. -/
inductive FileEv where
  | created
  | closed
  | deleted
deriving DecidableEq

/-- What the detached image job did: its send/call events and the
temporary file's lifecycle events. -/
structure JobResult where
  sends : List Ev
  fileEvents : List FileEv
deriving DecidableEq

/-- generate_recipe_from_ingredients (src/app.py lines 104-121): returns
the model output, or the fixed apology when the OpenAI call raises — the
try/except is inside the function, so it never raises itself. -/
def generate_recipe_from_ingredients (genResult : Option String) : String :=
  match genResult with
  | some recipe => recipe
  | none => genErrMsg

/-- build_recipe_messages (src/app.py lines 65-66): every cap parameter is
ignored and the whole recipe text is wrapped in a single TextSendMessage,
modelled by its text payload. -/
def build_recipe_messages (recipe_text : String)
    (max_chars max_groups group_size : Nat) : List String :=
  [recipe_text]

/-- One push_message attempt per message in order; the attempt at index
failAt raises, aborting the loop after that attempt.  Returns the attempted
sends and whether the loop raised. -/
def pushLoop (uid : String) : List String → Option Nat → List Ev × Bool
  | [], _ => ([], false)
  | m :: rest, failAt =>
    match failAt with
    | some 0 => ([Ev.push uid m], true)
    | some (n + 1) =>
      let r := pushLoop uid rest (some n)
      (Ev.push uid m :: r.1, r.2)
    | none =>
      let r := pushLoop uid rest none
      (Ev.push uid m :: r.1, r.2)

/-- handle_message (src/app.py lines 126-166) as a send/call trace: the ack
reply consuming the reply token, then — still inside the try — the OpenAI
call and the push loop over build_recipe_messages; any raise jumps to the
except block, which pushes the fixed error text to event.source.user_id. -/
def handle_message (tok uid userText : String) (o : TextOracle) : List Ev :=
  Ev.reply tok ackTextMsg ::
    (if o.replyOk then
      Ev.genCall ::
        (match o.genResult with
        | none => [Ev.push uid textErrMsg]
        | some recipe =>
          let r := pushLoop uid (build_recipe_messages recipe 5000 5 3) o.pushFailAt
          r.1 ++ (if r.2 then [Ev.push uid textErrMsg] else []))
    else [Ev.push uid textErrMsg])

/-- async_job inside handle_image (src/app.py lines 183-199): the tempfile
with-block (NamedTemporaryFile(delete=False): created on entry, closed on
every exit of the block, never deleted — no unlink exists anywhere), the
content fetch inside the block, then the vision call, the recipe call and
the push loop; any raise is only printed by the except block. -/
def async_job (uid : String) (o : ImageOracle) : JobResult :=
  if o.fetchOk then
    match o.detectResult with
    | some _ =>
      let recipe := generate_recipe_from_ingredients o.genResult
      ⟨Ev.fetchCall :: Ev.detectCall :: Ev.genCall ::
          (pushLoop uid (build_recipe_messages recipe 5000 5 3) o.pushFailAt).1,
        [FileEv.created, FileEv.closed]⟩
    | none => ⟨[Ev.fetchCall, Ev.detectCall], [FileEv.created, FileEv.closed]⟩
  else
    ⟨[Ev.fetchCall], [FileEv.created, FileEv.closed]⟩

/-- handle_image (src/app.py lines 169-201): the ack reply attempt — whose
LineBotApiError is caught and only logged — followed by the detached
async_job's sends. -/
def handle_image (tok uid : String) (o : ImageOracle) : List Ev :=
  Ev.reply tok ackImageMsg :: (async_job uid o).sends

/-- True exactly on reply sends. -/
def isReplyEv : Ev → Bool
  | Ev.reply _ _ => true
  | _ => false

/-- True exactly on push sends. -/
def isPushEv : Ev → Bool
  | Ev.push _ _ => true
  | _ => false

/-- After the consuming reply, an event must not be a reply, and any push
must target the given user id. -/
def pushOnlyTo (uid : String) : Ev → Bool
  | Ev.reply _ _ => false
  | Ev.push u _ => u == uid
  | _ => true

lemma pushLoop_fst_singleton (uid m : String) (failAt : Option Nat) :
    (pushLoop uid [m] failAt).1 = [Ev.push uid m] := by
  match failAt with
  | none => rfl
  | some 0 => rfl
  | some (n + 1) => rfl

lemma handle_message_cases (tok uid userText : String) (o : TextOracle) :
    handle_message tok uid userText o = [Ev.reply tok ackTextMsg, Ev.push uid textErrMsg] ∨
    handle_message tok uid userText o
        = [Ev.reply tok ackTextMsg, Ev.genCall, Ev.push uid textErrMsg] ∨
    ∃ r, o.genResult = some r ∧
      (handle_message tok uid userText o
          = [Ev.reply tok ackTextMsg, Ev.genCall, Ev.push uid r] ∨
       handle_message tok uid userText o
          = [Ev.reply tok ackTextMsg, Ev.genCall, Ev.push uid r, Ev.push uid textErrMsg]) := by
  obtain ⟨ro, gr, pf⟩ := o
  cases ro with
  | false => exact Or.inl rfl
  | true =>
    cases gr with
    | none => exact Or.inr (Or.inl rfl)
    | some r =>
      refine Or.inr (Or.inr ⟨r, rfl, ?_⟩)
      cases pf with
      | none => exact Or.inl rfl
      | some n =>
        cases n with
        | zero => exact Or.inr rfl
        | succ k => exact Or.inl rfl

lemma async_job_sends_cases (uid : String) (o : ImageOracle) :
    (async_job uid o).sends = [Ev.fetchCall] ∨
    (async_job uid o).sends = [Ev.fetchCall, Ev.detectCall] ∨
    ∃ r, (async_job uid o).sends
        = [Ev.fetchCall, Ev.detectCall, Ev.genCall, Ev.push uid r] := by
  obtain ⟨ro, fo, dr, gr, pf⟩ := o
  cases fo with
  | false => exact Or.inl rfl
  | true =>
    cases dr with
    | none => exact Or.inr (Or.inl rfl)
    | some ing =>
      refine Or.inr (Or.inr ⟨generate_recipe_from_ingredients gr, ?_⟩)
      simp [async_job, build_recipe_messages, pushLoop_fst_singleton]

/-- HTTP outcome of the /callback endpoint, as Flask produces it: a normal
200 "OK" return, abort(400), or an uncaught exception (HTTP 500). -/
inductive CallbackResult where
  | ok200
  | badRequest400
  | serverError500
deriving DecidableEq

/-- The linebot SDK's WebhookHandler.handle(body, signature): it always
verifies the signature of the body against the channel secret and raises
InvalidSignatureError on mismatch — the very error the non-bypass branch of
callback catches.  validSig is the outcome of that verification. -/
def handler_handle (validSig : Bool) : Except Unit Unit :=
  if validSig then Except.ok () else Except.error ()

/-- callback (src/app.py lines 71-82): with DISABLE_SIGNATURE_CHECK set to
"true", handler.handle is called outside any try, so an
InvalidSignatureError escapes uncaught; otherwise it is caught and mapped
to abort(400). -/
def callback (bypassFlag : Bool) (validSig : Bool) : CallbackResult :=
  if bypassFlag then
    match handler_handle validSig with
    | Except.ok _ => CallbackResult.ok200
    | Except.error _ => CallbackResult.serverError500
  else
    match handler_handle validSig with
    | Except.ok _ => CallbackResult.ok200
    | Except.error _ => CallbackResult.badRequest400

/-- C1: in both handlers the reply token is consumed by exactly the one
leading reply_message call; the rest of the trace never contains a reply
send and every later push is addressed to event.source.user_id. -/
theorem claim_C1_reply_token_once (tok uid userText : String)
    (oT : TextOracle) (oI : ImageOracle) :
    ((handle_message tok uid userText oT).filter isReplyEv).length ≤ 1 ∧
    (handle_message tok uid userText oT).tail.all (pushOnlyTo uid) = true ∧
    ((handle_image tok uid oI).filter isReplyEv).length ≤ 1 ∧
    (handle_image tok uid oI).tail.all (pushOnlyTo uid) = true := by
  refine ⟨?_, ?_, ?_, ?_⟩
  · rcases handle_message_cases tok uid userText oT with h | h | ⟨r, _, h | h⟩ <;>
      rw [h] <;> simp [isReplyEv]
  · rcases handle_message_cases tok uid userText oT with h | h | ⟨r, _, h | h⟩ <;>
      rw [h] <;> simp [pushOnlyTo]
  · rcases async_job_sends_cases uid oI with h | h | ⟨r, h⟩ <;>
      simp [handle_image, h, isReplyEv]
  · rcases async_job_sends_cases uid oI with h | h | ⟨r, h⟩ <;>
      simp [handle_image, h, pushOnlyTo]

/-- C2: evaluating the callback (src/app.py lines 71-82) at the failing
input.  With DISABLE_SIGNATURE_CHECK true the code still calls
handler.handle, which verifies the signature, and the InvalidSignatureError
it raises on a bad signature escapes uncaught (an HTTP 500), instead of the
claimed unconditional 200 OK; without the flag the same input gets the
documented 400. -/
theorem claim_C2_bypass_still_verifies :
    callback true false = CallbackResult.serverError500 ∧
    callback true false ≠ CallbackResult.ok200 ∧
    callback true true = CallbackResult.ok200 ∧
    callback false false = CallbackResult.badRequest400 := by
  decide

/-- C5 fails as stated: a recipe longer than the max_chars cap is emitted
as the single unit of the batch, exceeding the per-unit size limit instead
of being truncated. -/
theorem claim_C5_counterexample :
    build_recipe_messages (String.mk (List.replicate 5001 'a')) 5000 5 3
        = [String.mk (List.replicate 5001 'a')] ∧
    5000 < (String.mk (List.replicate 5001 'a')).length := by
  constructor
  · rfl
  · show 5000 < (List.replicate 5001 'a').length
    rw [List.length_replicate]
    omega

/-- C5 amended: build_recipe_messages ignores every cap parameter and
always returns exactly one unit carrying the full recipe text verbatim, so
the per-call unit count (1) trivially respects the max-items limit, but the
per-unit size cap is not enforced and no content is ever dropped. -/
theorem claim_C5_single_verbatim_unit (recipe : String) (mc mg gs : Nat) :
    build_recipe_messages recipe mc mg gs = [recipe] ∧
    (build_recipe_messages recipe mc mg gs).length ≤ 5 :=
  ⟨rfl, by simp [build_recipe_messages]⟩

/-- C6 fails as stated: with the text handler active, a raising generation
call lands in the generic except block, which delivers the other fixed
string textErrMsg, not the claimed genErrMsg. -/
theorem claim_C6_counterexample :
    handle_message "T" "U" "x" ⟨true, none, none⟩
        = [Ev.reply "T" ackTextMsg, Ev.genCall, Ev.push "U" textErrMsg] ∧
    textErrMsg ≠ genErrMsg :=
  ⟨rfl, by decide⟩

/-- C6 amended: when the recipe-generation call raises, the image flow
(through generate_recipe_from_ingredients) pushes exactly genErrMsg to the
user, while the text flow pushes exactly the different fixed string
textErrMsg from its except block. -/
theorem claim_C6_generation_error_texts (tok uid userText ing : String)
    (oT : TextOracle) (oI : ImageOracle)
    (hT1 : oT.replyOk = true) (hT2 : oT.genResult = none)
    (hI1 : oI.fetchOk = true) (hI2 : oI.detectResult = some ing)
    (hI3 : oI.genResult = none) :
    handle_message tok uid userText oT
        = [Ev.reply tok ackTextMsg, Ev.genCall, Ev.push uid textErrMsg] ∧
    handle_image tok uid oI
        = [Ev.reply tok ackImageMsg, Ev.fetchCall, Ev.detectCall, Ev.genCall,
            Ev.push uid genErrMsg] := by
  constructor
  · simp [handle_message, hT1, hT2]
  · simp [handle_image, async_job, hI1, hI2, hI3,
      generate_recipe_from_ingredients, build_recipe_messages, pushLoop_fst_singleton]

/-- Witness for C6's amended theorem at concrete oracles. -/
theorem claim_C6_witness :
    handle_message "T" "U" "x" ⟨true, none, none⟩
        = [Ev.reply "T" ackTextMsg, Ev.genCall, Ev.push "U" textErrMsg] ∧
    handle_image "T" "U" ⟨true, true, some "i", none, none⟩
        = [Ev.reply "T" ackImageMsg, Ev.fetchCall, Ev.detectCall, Ev.genCall,
            Ev.push "U" genErrMsg] :=
  claim_C6_generation_error_texts "T" "U" "x" "i"
    ⟨true, none, none⟩ ⟨true, true, some "i", none, none⟩ rfl rfl rfl rfl rfl

/-- C7 fails as stated: in the text handler the ack reply failure jumps to
the except block, so the generation call is never attempted. -/
theorem claim_C7_counterexample :
    Ev.genCall ∉ handle_message "T" "U" "x" ⟨false, some "r", none⟩ := by
  decide

/-- C7 amended: the image handler catches a failed ack reply and the
detached job still performs both generation calls and the final push of the
recipe; the text handler instead aborts generation and pushes its fixed
error text from the except block. -/
theorem claim_C7_ack_failure (tok uid userText ing recipe : String)
    (oT : TextOracle) (oI : ImageOracle) (hT : oT.replyOk = false)
    (hI0 : oI.replyOk = false) (hI1 : oI.fetchOk = true)
    (hI2 : oI.detectResult = some ing) (hI3 : oI.genResult = some recipe) :
    handle_message tok uid userText oT
        = [Ev.reply tok ackTextMsg, Ev.push uid textErrMsg] ∧
    handle_image tok uid oI
        = [Ev.reply tok ackImageMsg, Ev.fetchCall, Ev.detectCall, Ev.genCall,
            Ev.push uid recipe] := by
  constructor
  · simp [handle_message, hT]
  · simp [handle_image, async_job, hI1, hI2, hI3,
      generate_recipe_from_ingredients, build_recipe_messages, pushLoop_fst_singleton]

/-- Witness for C7's amended theorem at concrete oracles. -/
theorem claim_C7_witness :
    handle_message "T" "U" "x" ⟨false, some "r", none⟩
        = [Ev.reply "T" ackTextMsg, Ev.push "U" textErrMsg] ∧
    handle_image "T" "U" ⟨false, true, some "i", some "r", none⟩
        = [Ev.reply "T" ackImageMsg, Ev.fetchCall, Ev.detectCall, Ev.genCall,
            Ev.push "U" "r"] :=
  claim_C7_ack_failure "T" "U" "x" "i" "r"
    ⟨false, some "r", none⟩ ⟨false, true, some "i", some "r", none⟩ rfl rfl rfl rfl rfl

/-- C8 fails as stated: when the content fetch raises, the job's except
block only prints — the trace after the fetch attempt is empty, so no
apology (indeed no message at all) reaches the user, although the two
generation calls are correctly skipped. -/
theorem claim_C8_counterexample :
    (async_job "U" ⟨true, false, some "i", some "r", none⟩).sends = [Ev.fetchCall] ∧
    (async_job "U" ⟨true, false, some "i", some "r", none⟩).sends.filter isPushEv = [] :=
  ⟨rfl, rfl⟩

/-- C8 amended: a failed content fetch attempts neither the ingredient
detection nor the recipe generation call, and delivers no message at all
for that event — the failure is only logged. -/
theorem claim_C8_fetch_failure (uid : String) (o : ImageOracle)
    (h : o.fetchOk = false) :
    (async_job uid o).sends = [Ev.fetchCall] ∧
    Ev.genCall ∉ (async_job uid o).sends ∧
    Ev.detectCall ∉ (async_job uid o).sends ∧
    (async_job uid o).sends.filter isPushEv = [] := by
  have hs : (async_job uid o).sends = [Ev.fetchCall] := by
    simp [async_job, h]
  refine ⟨hs, ?_, ?_, ?_⟩ <;> rw [hs] <;> decide

/-- Witness for C8's amended theorem at a concrete oracle. -/
theorem claim_C8_witness :
    (async_job "U" ⟨true, false, some "i", some "r", some 0⟩).sends = [Ev.fetchCall] ∧
    Ev.genCall ∉ (async_job "U" ⟨true, false, some "i", some "r", some 0⟩).sends ∧
    Ev.detectCall ∉ (async_job "U" ⟨true, false, some "i", some "r", some 0⟩).sends ∧
    (async_job "U" ⟨true, false, some "i", some "r", some 0⟩).sends.filter isPushEv = [] :=
  claim_C8_fetch_failure "U" ⟨true, false, some "i", some "r", some 0⟩ rfl

/-- C9 fails as stated: even on a fully successful run the temporary file
is never deleted — NamedTemporaryFile is created with delete=False and no
unlink exists on any path. -/
theorem claim_C9_counterexample :
    FileEv.deleted ∉ (async_job "U" ⟨true, true, some "i", some "r", none⟩).fileEvents := by
  decide

/-- C9 amended: on every path of the image job the temporary file is
created and then closed when the with-block exits (exceptions included),
but it is never deleted: delete=False with no unlink means the file
outlives the handler invocation on every exit path. -/
theorem claim_C9_tempfile_closed_never_deleted (uid : String) (o : ImageOracle) :
    (async_job uid o).fileEvents = [FileEv.created, FileEv.closed] ∧
    FileEv.deleted ∉ (async_job uid o).fileEvents := by
  have hf : (async_job uid o).fileEvents = [FileEv.created, FileEv.closed] := by
    obtain ⟨ro, fo, dr, gr, pf⟩ := o
    cases fo <;> cases dr <;> rfl
  exact ⟨hf, by rw [hf]; decide⟩

end Agent525
